import Mathlib

/-!
Shallow embedding of the OCR service repository (src/app.py and
src/discord_bot.py) and verification of its specification claims.

Python dynamic values appearing in the untyped OCR-engine output are
modelled by the inductive `PyVal`; Python exceptions are modelled by
`Except String`; Python floats are modelled by `ℚ` (exact rationals);
external effects (the OCR engine, PIL image operations, file removal)
are modelled as explicit parameters carrying their outcome, and the
observable effects of a request (lock acquisition and release, engine
calls, temporary-file creation and removal, garbage-collection passes)
are recorded in an explicit event trace.
-/

/-- Python values as they appear in the untyped engine output
(`ocr.ocr(...)` returns nested lists of lists, strings and numbers). -/
inductive PyVal where
  | none : PyVal
  | bool : Bool → PyVal
  | int : Int → PyVal
  | float : ℚ → PyVal
  | str : String → PyVal
  | list : List PyVal → PyVal

/-- Python truthiness (`if x:`): `None`/`False`/`0`/`0.0`/empty string/empty
list are falsy, everything else is truthy. -/
def PyVal.truthy : PyVal → Bool
  | .none => false
  | .bool b => b
  | .int n => decide (n ≠ 0)
  | .float q => decide (q ≠ 0)
  | .str s => decide (s.length ≠ 0)
  | .list l => decide (l.length ≠ 0)

/-- Python `len(x)`: defined for strings and lists, raises `TypeError`
otherwise. -/
def pyLen : PyVal → Except String Nat
  | .str s => .ok s.length
  | .list l => .ok l.length
  | _ => .error "TypeError: object has no length"

/-- Python subscription `x[i]` for a natural index: lists and strings are
subscriptable (a string yields a one-character string), everything else
raises `TypeError`; an out-of-range index raises `IndexError`. -/
def pyIndex : PyVal → Nat → Except String PyVal
  | .list l, i =>
      if h : i < l.length then .ok (l.get ⟨i, h⟩) else .error "IndexError: list index out of range"
  | .str s, i =>
      if h : i < s.data.length then .ok (.str (String.mk [s.data.get ⟨i, h⟩]))
      else .error "IndexError: string index out of range"
  | _, _ => .error "TypeError: object is not subscriptable"

/-- Python `float(x)`: numbers and booleans convert, `None` and lists raise
`TypeError`. Conversion of numeric string literals is not needed by any
engine-output scenario used here and is modelled as the failing case
(`ValueError`), matching non-numeric strings. -/
def pyFloat : PyVal → Except String ℚ
  | .float q => .ok q
  | .int n => .ok (n : ℚ)
  | .bool b => .ok (if b then 1 else 0)
  | .str _ => .error "ValueError: could not convert string to float"
  | _ => .error "TypeError: argument must be a number"

/-- One recognized line as built by both files
(`{"text": line[1][0], "confidence": float(line[1][1]), "bbox": line[0]}`).
The text and bbox components are kept as raw Python values because the
source performs no type check on them. -/
structure OcrLine where
  text : PyVal
  confidence : ℚ
  bbox : PyVal

/-- Processing of one raw detection `line`, from the loop body shared by
src/app.py lines 85-91 and src/discord_bot.py lines 144-150:
`if line and len(line) >= 2:` append the dict, else skip (`.ok none`).
Any error raised while extracting the components propagates. -/
def formatLine (line : PyVal) : Except String (Option OcrLine) := do
  if line.truthy then
    let n ← pyLen line
    if 2 ≤ n then
      let inner ← pyIndex line 1
      let t ← pyIndex inner 0
      let c ← pyIndex inner 1
      let q ← pyFloat c
      let b ← pyIndex line 0
      pure (some (OcrLine.mk t q b))
    else
      pure none
  else
    pure none

/-- Python iteration `for line in r0`: lists iterate their elements, strings
iterate one-character strings, other values raise `TypeError`. -/
def iterElems : PyVal → Except String (List PyVal)
  | .list l => .ok l
  | .str s => .ok (s.data.map fun ch => PyVal.str (String.mk [ch]))
  | _ => .error "TypeError: object is not iterable"

/-- The accumulation loop `for line in result[0]: ...` building
`text_results` in order. -/
def collectLines (lines : List PyVal) : Except String (List OcrLine) :=
  lines.foldlM
    (fun acc line => do
      match ← formatLine line with
      | some ol => pure (acc ++ [ol])
      | none => pure acc)
    []

/-- The result-normalisation block shared by both files:
`text_results = []; if result and result[0]: for line in result[0]: ...`
(src/app.py lines 83-91, src/discord_bot.py lines 142-150). -/
def formatResults (result : PyVal) : Except String (List OcrLine) := do
  if result.truthy then
    let r0 ← pyIndex result 0
    if r0.truthy then
      let ls ← iterElems r0
      collectLines ls
    else
      pure []
  else
    pure []

/-- The lines a raw detection list yields when no extraction error occurs:
each detection either parses to a line or is skipped. Used to state
order-preserving parsing. -/
def parsedLines (lines : List PyVal) : List OcrLine :=
  lines.filterMap fun l =>
    match formatLine l with
    | .ok (some ol) => some ol
    | _ => none

/-- Python `" ".join([r["text"] for r in text_results])`: every text
component must be a string, otherwise `join` raises `TypeError`. -/
def pyJoinTexts (lines : List OcrLine) : Except String String := do
  let strs ← lines.mapM fun l =>
    match l.text with
    | .str s => Except.ok s
    | _ => Except.error "TypeError: sequence item is not a string"
  pure (String.intercalate " " strs)

/-- The crop rectangle `(x1, y1, x2, y2)` computed by
`crop_image_to_target_region` (src/discord_bot.py lines 88-100). -/
structure CropCoords where
  x1 : Nat
  y1 : Nat
  x2 : Nat
  y2 : Nat
deriving DecidableEq

/-- The clamping arithmetic of src/discord_bot.py lines 88-100: the nominal
rectangle is `(576, 100, 1068, img_height)` and each coordinate is clamped
by `max(0, min(coordinate, dimension))`. Image dimensions from PIL are
non-negative and are modelled as `Nat` (so the `max 0` clamp is kept
literally but is trivial). -/
def cropRegion (imgWidth imgHeight : Nat) : CropCoords where
  x1 := max 0 (min 576 imgWidth)
  y1 := max 0 (min 100 imgHeight)
  x2 := max 0 (min 1068 imgWidth)
  y2 := max 0 (min imgHeight imgHeight)

/-- `image_path.replace('.png', '_cropped.png').replace('.jpg', '_cropped.jpg').replace('.jpeg', '_cropped.jpg')`
(src/discord_bot.py line 117). -/
def croppedPathOf (p : String) : String :=
  ((p.replace ".png" "_cropped.png").replace ".jpg" "_cropped.jpg").replace ".jpeg" "_cropped.jpg"

/-- `image_path.replace('.png', '_visual.png').replace('.jpg', '_visual.jpg').replace('.jpeg', '_visual.jpg')`
(src/discord_bot.py line 118). -/
def visualPathOf (p : String) : String :=
  ((p.replace ".png" "_visual.png").replace ".jpg" "_visual.jpg").replace ".jpeg" "_visual.jpg"

/-- Outcomes of the external PIL operations performed inside the `try`
block of `crop_image_to_target_region`: loading the image (which yields
its size or raises), and whether cropping, copy/draw visualization, and
the two saves succeed. -/
structure CropEnv where
  load : Except String (Nat × Nat)
  cropOk : Bool
  copyDrawOk : Bool
  saveCroppedOk : Bool
  saveVisualOk : Bool

/-- All steps after a successful load succeed. -/
def CropEnv.restOk (env : CropEnv) : Bool :=
  env.cropOk && env.copyDrawOk && env.saveCroppedOk && env.saveVisualOk

/-- Whether the whole `try` body of `crop_image_to_target_region` runs
without raising. -/
def CropEnv.stepsOk (env : CropEnv) : Bool :=
  (match env.load with | .ok _ => true | .error _ => false) && env.restOk

namespace Bot

/-- `crop_image_to_target_region` (src/discord_bot.py lines 81-129):
returns `(cropped_path, visual_path, crop_coords)`; if any step of
loading, cropping, visualization or saving raises, the `except` handler
returns `(image_path, image_path, (0, 0, 0, 0))`. The function is total:
it never raises (its result type carries no exception). -/
def crop_image_to_target_region (imagePath : String) (env : CropEnv) :
    String × String × CropCoords :=
  match env.load with
  | .error _ => (imagePath, imagePath, ⟨0, 0, 0, 0⟩)
  | .ok (w, h) =>
      if env.restOk then
        (croppedPathOf imagePath, visualPathOf imagePath, cropRegion w h)
      else
        (imagePath, imagePath, ⟨0, 0, 0, 0⟩)

end Bot

/-- Observable events of one request: lock acquisition/release of the OCR
lock (`ocr_lock`), a call into the OCR engine, a `cleanup_memory()` pass,
and creation/removal (attempted unlink, best-effort) of a temporary file. -/
inductive Event where
  | acquire : Event
  | release : Event
  | engineCall : Event
  | gcPass : Event
  | saveTemp : String → Event
  | removeTemp : String → Event
deriving DecidableEq

/-- Result dictionary of `perform_ocr_on_file` (src/discord_bot.py):
either the success dict
`{"success": True, "results", "text", "cropped_path", "visual_path", "crop_coords"}`
or the failure dict `{"success": False, "error": str(e)}`. -/
inductive BotOcrResult where
  | ok (results : List OcrLine) (text : String)
      (croppedPath visualPath : String) (cropCoords : CropCoords) : BotOcrResult
  | err (msg : String) : BotOcrResult

/-- The `"success"` field of the result dictionary. -/
def BotOcrResult.success : BotOcrResult → Bool
  | .ok .. => true
  | .err _ => false

namespace Bot

/-- `perform_ocr_on_file` (src/discord_bot.py lines 131-171). The engine
call `ocr.ocr(cropped_path, cls=False)` is the parameter `engine` applied
to the cropped path; it may raise. The whole body is wrapped in
`try/except Exception`, so the function always returns a dictionary and
never raises. The `with ocr_lock:` block releases the lock both on normal
return and while an exception unwinds (before the `except` handler runs
`cleanup_memory()`); on the success path `cleanup_memory()` runs inside
the block, before release. -/
def perform_ocr_on_file (imagePath : String) (env : CropEnv)
    (engine : String → Except String PyVal) : BotOcrResult × List Event :=
  match engine (crop_image_to_target_region imagePath env).1 with
  | .error e => (.err e, [.acquire, .engineCall, .release, .gcPass])
  | .ok raw =>
      match formatResults raw with
      | .error e => (.err e, [.acquire, .engineCall, .release, .gcPass])
      | .ok lines =>
          match pyJoinTexts lines with
          | .error e => (.err e, [.acquire, .engineCall, .release, .gcPass])
          | .ok txt =>
              (.ok lines txt (crop_image_to_target_region imagePath env).1
                 (crop_image_to_target_region imagePath env).2.1
                 (crop_image_to_target_region imagePath env).2.2,
               [.acquire, .engineCall, .gcPass, .release])

end Bot

/-- JSON body returned by the `/ocr` route of src/app.py: either the
success payload `{"success": True, "results": ..., "text": ...}` (line 93)
or an error payload `{"error": msg}` (lines 58, 80, 109). -/
inductive AppJson where
  | success (results : List OcrLine) (text : String) : AppJson
  | error (msg : String) : AppJson

/-- The value of the `"success"` key of the JSON body, `Option.none` when
the key is absent. -/
def AppJson.successField : AppJson → Option Bool
  | .success _ _ => some true
  | .error _ => none

/-- Outcomes of the external steps of the `image_base64` branch of `/ocr`
(src/app.py lines 63-78): base64 decoding, `Image.open`, and whether the
best-effort `os.remove` of the temporary file succeeds (its outcome is
swallowed either way). `image.save(temp_path)` is modelled as succeeding:
no claim depends on a failing save. -/
structure Base64Source where
  decode : Except String Unit
  decodeImage : Except String Unit
  removeOk : Bool

/-- Shape of the request body received by `/ocr` (src/app.py lines 53-80):
a local path (together with whether `os.path.exists` holds for it), a
base64 payload, or neither. -/
inductive OcrRequestBody where
  | withPath (path : String) (pathExists : Bool) : OcrRequestBody
  | withBase64 (src : Base64Source) : OcrRequestBody
  | neither : OcrRequestBody

/-- `temp_path = '/tmp/temp_image.png'` (src/app.py line 68). -/
def tempImagePath : String := "/tmp/temp_image.png"

namespace App

/-- The `/ocr` route handler `perform_ocr` (src/app.py lines 48-109),
returning `(json_body, http_status)` and the event trace. The whole body
sits in `try: with ocr_lock: ... except Exception: ...`, so the lock is
acquired first; a `return` inside the `with` block and an exception
unwinding out of it both release the lock, and the `except` handler then
runs `cleanup_memory()` and returns status 500. In the `image_base64`
branch the temporary file is saved, the engine is invoked on it, and only
after the engine call returns is `os.remove` attempted (best-effort); an
engine exception jumps to the handler without removing the file. -/
def perform_ocr (body : OcrRequestBody) (engine : String → Except String PyVal) :
    (AppJson × Nat) × List Event :=
  match body with
  | .withPath path ex =>
      if ex then
        match engine path with
        | .error e => ((.error e, 500), [.acquire, .engineCall, .release, .gcPass])
        | .ok raw =>
            match formatResults raw with
            | .error e => ((.error e, 500), [.acquire, .engineCall, .release, .gcPass])
            | .ok lines =>
                match pyJoinTexts lines with
                | .error e => ((.error e, 500), [.acquire, .engineCall, .release, .gcPass])
                | .ok txt => ((.success lines txt, 200), [.acquire, .engineCall, .gcPass, .release])
      else
        ((.error "Image file not found", 404), [.acquire, .release])
  | .withBase64 src =>
      match src.decode with
      | .error e => ((.error e, 500), [.acquire, .release, .gcPass])
      | .ok _ =>
          match src.decodeImage with
          | .error e => ((.error e, 500), [.acquire, .release, .gcPass])
          | .ok _ =>
              match engine tempImagePath with
              | .error e =>
                  ((.error e, 500),
                   [.acquire, .saveTemp tempImagePath, .engineCall, .release, .gcPass])
              | .ok raw =>
                  match formatResults raw with
                  | .error e =>
                      ((.error e, 500),
                       [.acquire, .saveTemp tempImagePath, .engineCall,
                        .removeTemp tempImagePath, .release, .gcPass])
                  | .ok lines =>
                      match pyJoinTexts lines with
                      | .error e =>
                          ((.error e, 500),
                           [.acquire, .saveTemp tempImagePath, .engineCall,
                            .removeTemp tempImagePath, .release, .gcPass])
                      | .ok txt =>
                          ((.success lines txt, 200),
                           [.acquire, .saveTemp tempImagePath, .engineCall,
                            .removeTemp tempImagePath, .gcPass, .release])
  | .neither => ((.error "No image provided", 400), [.acquire, .release])

end App

/-- The `finally` block of `runocr` (src/discord_bot.py lines 300-314):
`os.unlink(temp_path)` is attempted (best-effort), then for each of
`cropped_path` and `visual_path`, in that order, the file is unlinked
(best-effort) when the key is present in the result dictionary and the
path differs from `temp_path`. The failure dictionary carries neither
key, so only the temporary file is unlinked on the failure path. -/
def runocrCleanupEvents (tempPath : String) (res : BotOcrResult) : List Event :=
  Event.removeTemp tempPath ::
    (match res with
     | .ok _ _ cropped visual _ =>
         (if cropped ≠ tempPath then [Event.removeTemp cropped] else []) ++
           (if visual ≠ tempPath then [Event.removeTemp visual] else [])
     | .err _ => [])

namespace Bot

/-- Event trace of the `runocr` command (src/discord_bot.py lines 196-319)
from the download step onward. A failed download is answered immediately
(lines 218-222) and the OCR pipeline — including the OCR lock — is never
entered. On a successful download, `perform_ocr_on_file` runs inside a
`try` whose `finally` block performs the temporary-file cleanup on every
exit path (early failure return, empty-text return, success, and
exceptions from the messaging steps, none of which touch the lock or
temporary files). -/
def runocr (download : Except String String) (env : CropEnv)
    (engine : String → Except String PyVal) : List Event :=
  match download with
  | .error _ => []
  | .ok tempPath =>
      let r := perform_ocr_on_file tempPath env engine
      r.2 ++ runocrCleanupEvents tempPath r.1

end Bot

/-- The truncation marker appended by src/discord_bot.py line 256
(`"...\n*(text truncated)*"`, 22 characters). -/
def truncationMarker : String := "...\n*(text truncated)*"

/-- Truncation of the extracted text for display (src/discord_bot.py
lines 253-256): `if len(text_content) > 3500: text_content =
text_content[:3500] + marker`. Python strings are sequences of code
points, so the slice `[:3500]` keeps the first 3500 characters and can
never split one. -/
def truncateForDisplay (text : String) : String :=
  if text.length > 3500 then String.mk (text.data.take 3500) ++ truncationMarker
  else text

/-- The spec-side arithmetic mean of a list of rationals, used to compare
the code's aggregate-confidence computation against the specification's
words. -/
def arithMean (qs : List ℚ) : ℚ := qs.sum / qs.length

/-- The aggregate-confidence stat of src/discord_bot.py lines 264-271:
added only when `ocr_result["results"]` is truthy (non-empty), as
`sum(r["confidence"] for r in results) / len(results)`; omitted
(`Option.none`) for zero lines. -/
def avgConfidence (results : List OcrLine) : Option ℚ :=
  if results.length ≠ 0 then
    some ((results.map fun r => r.confidence).sum / results.length)
  else
    Option.none

/-- One observable step of the periodic cleanup loop: a timed wait or a
reclamation pass (with its outcome). -/
inductive LoopEvent where
  | wait (seconds : Nat) : LoopEvent
  | reclaim (ok : Bool) : LoopEvent
deriving DecidableEq

/-- The 30-second interval of both periodic loops
(`threading.Event().wait(30)` in src/app.py line 160, `asyncio.sleep(30)`
in src/discord_bot.py line 324). -/
def cleanupInterval : Nat := 30

/-- The periodic cleanup loop (`periodic_cleanup`, src/app.py lines
158-161 and src/discord_bot.py lines 322-325): `while True: wait(30);
cleanup_memory()`. The loop body has no exception handling, so an
exception raised by a reclamation pass propagates and ends the loop.
Evaluated against the finite prefix of pass outcomes delivered so far, it
yields the event trace and whether the loop is still running after that
prefix. -/
def periodic_cleanup : List Bool → List LoopEvent × Bool
  | [] => ([], true)
  | ok :: rest =>
      if ok then
        let r := periodic_cleanup rest
        (LoopEvent.wait cleanupInterval :: LoopEvent.reclaim true :: r.1, r.2)
      else
        ([LoopEvent.wait cleanupInterval, LoopEvent.reclaim false], false)

/-- State of two concurrent OCR requests sharing the single `ocr_lock`
(src/app.py line 15 / src/discord_bot.py line 19). Each request executes,
in order: its preprocessing outside the lock (download/crop), `acquire`
on entering `with ocr_lock:`, the engine call `ocr.ocr(...)`, and
`release` on leaving the block — so a thread's program counter ranges
over 0 (before preprocessing), 1 (before acquire), 2 (holding the lock,
engine call pending), 3 (holding the lock, engine call done), 4 (done).
`lock` is whether `ocr_lock` is currently held. -/
structure SysState where
  pc1 : Nat
  pc2 : Nat
  lock : Bool
deriving DecidableEq

/-- Both requests start before preprocessing with the lock free. -/
def initState : SysState := ⟨0, 0, false⟩

/-- A thread occupies the ExecutionSlot while it is between `acquire` and
`release`, i.e. at program counter 2 or 3. -/
def holdsSlot (pc : Nat) : Prop := pc = 2 ∨ pc = 3

/-- Interleaved small-step semantics of the two requests. `threading.Lock`
semantics: `acquire` proceeds only when the lock is free (a thread
attempting it otherwise stays blocked, i.e. has no enabled step), and the
holder's `release` frees it. -/
inductive LockStep : SysState → SysState → Prop where
  | work1 (s : SysState) : s.pc1 = 0 → LockStep s ⟨1, s.pc2, s.lock⟩
  | acquire1 (s : SysState) : s.pc1 = 1 → s.lock = false → LockStep s ⟨2, s.pc2, true⟩
  | engine1 (s : SysState) : s.pc1 = 2 → LockStep s ⟨3, s.pc2, s.lock⟩
  | release1 (s : SysState) : s.pc1 = 3 → LockStep s ⟨4, s.pc2, false⟩
  | work2 (s : SysState) : s.pc2 = 0 → LockStep s ⟨s.pc1, 1, s.lock⟩
  | acquire2 (s : SysState) : s.pc2 = 1 → s.lock = false → LockStep s ⟨s.pc1, 2, true⟩
  | engine2 (s : SysState) : s.pc2 = 2 → LockStep s ⟨s.pc1, 3, s.lock⟩
  | release2 (s : SysState) : s.pc2 = 3 → LockStep s ⟨s.pc1, 4, false⟩

/-- States reachable from the initial state by interleaved steps. -/
inductive ReachableState : SysState → Prop where
  | init : ReachableState initState
  | step {s t : SysState} : ReachableState s → LockStep s t → ReachableState t

/-- Inductive invariant: the lock is held exactly when one of the threads
occupies the slot, and never both. -/
def MutexInv (s : SysState) : Prop :=
  (s.lock = true ↔ (holdsSlot s.pc1 ∨ holdsSlot s.pc2)) ∧
    ¬(holdsSlot s.pc1 ∧ holdsSlot s.pc2)

/-- Claim C1: for every image of width `w` and height `h`, the crop
rectangle is obtained by clamping each coordinate of the nominal rectangle
`(576, 100, 1068, h)` independently into image bounds, so the resulting
coordinates satisfy `0 ≤ x1 ≤ x2 ≤ w` and `0 ≤ y1 ≤ y2 ≤ h` (the lower
bounds hold because the coordinates are naturals), the bottom edge `y2`
always equals the full image height `h`, and whenever `w ≥ 1068` and
`h ≥ 100` the remaining edges are exactly `x1 = 576`, `y1 = 100`,
`x2 = 1068`. -/
theorem crop_region_clamped (w h : Nat) :
    (cropRegion w h).x1 ≤ (cropRegion w h).x2 ∧
    (cropRegion w h).x2 ≤ w ∧
    (cropRegion w h).y1 ≤ (cropRegion w h).y2 ∧
    (cropRegion w h).y2 ≤ h ∧
    (cropRegion w h).y2 = h ∧
    (1068 ≤ w → (cropRegion w h).x1 = 576 ∧ (cropRegion w h).x2 = 1068) ∧
    (100 ≤ h → (cropRegion w h).y1 = 100) := by
  simp only [cropRegion]
  omega

/-- Witness for C1: a 1720x800 screenshot (the width the source comments
assume) is cropped to exactly `(576, 100, 1068, 800)`. -/
theorem crop_region_clamped_witness :
    (cropRegion 1720 800).x1 = 576 ∧ (cropRegion 1720 800).y1 = 100 ∧
    (cropRegion 1720 800).x2 = 1068 ∧ (cropRegion 1720 800).y2 = 800 := by
  obtain ⟨-, -, -, -, h5, h6, h7⟩ := crop_region_clamped 1720 800
  exact ⟨(h6 (by decide)).1, h7 (by decide), (h6 (by decide)).2, h5⟩

/-- Claim C10: the crop operation is total — `crop_image_to_target_region`
returns a plain triple and can raise nothing — and whenever any step of
loading, cropping, visualization or saving fails, it returns the original
image path as both the cropped path and the visualization path together
with crop coordinates `(0, 0, 0, 0)`. -/
theorem crop_failure_fallback (p : String) (env : CropEnv) :
    env.stepsOk = false →
    Bot.crop_image_to_target_region p env = (p, p, ⟨0, 0, 0, 0⟩) := by
  intro hfail
  unfold Bot.crop_image_to_target_region
  unfold CropEnv.stepsOk at hfail
  match hload : env.load with
  | .error e => simp
  | .ok wh =>
      rw [hload] at hfail
      simp only [Bool.true_and] at hfail
      obtain ⟨w, h⟩ := wh
      simp [hfail]

/-- Witness for C10: with a failing image load, cropping `shot.png` falls
back to the original path and zero coordinates. -/
theorem crop_failure_fallback_witness :
    Bot.crop_image_to_target_region "shot.png"
      ⟨Except.error "OSError: cannot open image", true, true, true, true⟩ =
      ("shot.png", "shot.png", ⟨0, 0, 0, 0⟩) :=
  crop_failure_fallback "shot.png" _ (by decide)

/-- Claim C5 (amended): text of at most 3500 characters is rendered
unchanged; longer text is cut to its first 3500 characters — at a
character boundary, so never inside a multi-byte character — and the
22-character truncation marker is appended, for a total length of exactly
3522 (not at most 3503 as claimed). -/
theorem truncation_behavior (t : String) :
    (t.length ≤ 3500 → truncateForDisplay t = t) ∧
    (3500 < t.length →
      (truncateForDisplay t).data = t.data.take 3500 ++ truncationMarker.data ∧
      (truncateForDisplay t).length = 3522) := by
  obtain ⟨l⟩ := t
  have hlen : (String.mk l).length = l.length := rfl
  constructor
  · intro h
    rw [hlen] at h
    rw [truncateForDisplay, if_neg (by rw [hlen]; omega)]
  · intro h
    rw [hlen] at h
    have hm : truncationMarker.length = 22 := by decide
    rw [truncateForDisplay, if_pos (by rw [hlen]; omega)]
    refine ⟨rfl, ?_⟩
    have hd : (String.mk l).data = l := rfl
    rw [String.length_append, String.length_mk, hd, List.length_take, hm]
    omega

/-- Witness for C5: a short string passes through unchanged and a
5000-character string is rendered at exactly 3522 characters. -/
theorem truncation_behavior_witness :
    truncateForDisplay "hi" = "hi" ∧
    (truncateForDisplay (String.mk (List.replicate 5000 'b'))).length = 3522 := by
  refine ⟨(truncation_behavior "hi").1 (by decide), ((truncation_behavior _).2 ?_).2⟩
  rw [String.length_mk, List.length_replicate]
  norm_num

/-- Counterexample to C5 as stated: on a 5000-character text the rendered
output has 3522 characters, which exceeds the claimed bound of 3503
(the appended marker is 22 characters, not 3). -/
theorem truncation_exceeds_claimed_bound :
    ¬((truncateForDisplay (String.mk (List.replicate 5000 'a'))).length ≤ 3503) := by
  have h2 : (String.mk (List.replicate 5000 'a')).data = List.replicate 5000 'a' := rfl
  have hm : truncationMarker.length = 22 := by decide
  have hc : (String.mk (List.replicate 5000 'a')).length > 3500 := by
    rw [String.length_mk, List.length_replicate]; norm_num
  rw [truncateForDisplay, if_pos hc, String.length_append, String.length_mk, h2,
    List.take_replicate, List.length_replicate, hm]
  norm_num

/-- Claim C7: the aggregate confidence is the arithmetic mean of the
per-line confidences whenever at least one line exists — in particular
`[0.9, 0.5]` yields exactly `0.7` — and for zero lines the stat is
omitted entirely instead of dividing by zero. -/
theorem avg_confidence_mean :
    (∀ rs : List OcrLine, rs ≠ [] →
        avgConfidence rs = some (arithMean (rs.map fun r => r.confidence))) ∧
    avgConfidence [] = Option.none ∧
    avgConfidence
        [⟨PyVal.str "a", 9/10, PyVal.list []⟩, ⟨PyVal.str "b", 5/10, PyVal.list []⟩] =
      some (7/10) := by
  refine ⟨?_, rfl, ?_⟩
  · intro rs h
    rw [avgConfidence, arithMean, if_pos (by simpa using h), List.length_map]
  · rw [avgConfidence, if_pos (by norm_num)]
    norm_num

/-- Witness for C7: a single line of confidence `0.8` averages to `0.8`. -/
theorem avg_confidence_mean_witness :
    avgConfidence [⟨PyVal.str "x", 4/5, PyVal.none⟩] = some (4/5) := by
  rw [avg_confidence_mean.1 [⟨PyVal.str "x", 4/5, PyVal.none⟩] (List.cons_ne_nil _ _)]
  norm_num [arithMean]

/-- Every wait event of the loop trace uses the fixed interval. -/
def LoopEvent.waitIsInterval : LoopEvent → Bool
  | .wait n => n == cleanupInterval
  | .reclaim _ => true

/-- Claim C8 (amended): every wait of the periodic reclamation loop is
exactly the fixed 30-second interval and every iteration performs one
wait and one reclamation pass, but the loop body has no exception
handling: it remains running after a prefix of passes exactly when every
pass in it succeeded — a single raising pass terminates the loop instead
of being survived. -/
theorem periodic_cleanup_loop (outcomes : List Bool) :
    ((periodic_cleanup outcomes).1.all LoopEvent.waitIsInterval = true) ∧
    ((periodic_cleanup outcomes).2 = true ↔ outcomes.all (fun b => b) = true) ∧
    (outcomes.all (fun b => b) = true →
      (periodic_cleanup outcomes).1.length = 2 * outcomes.length) := by
  induction outcomes with
  | nil => exact ⟨rfl, by simp [periodic_cleanup], fun _ => rfl⟩
  | cons ok rest ih =>
      obtain ⟨ih1, ih2, ih3⟩ := ih
      cases ok with
      | false =>
          have hred : periodic_cleanup (false :: rest) =
              ([LoopEvent.wait cleanupInterval, LoopEvent.reclaim false], false) := rfl
          refine ⟨by rw [hred]; decide, by rw [hred]; simp, by simp⟩
      | true =>
          have hred : periodic_cleanup (true :: rest) =
              (LoopEvent.wait cleanupInterval :: LoopEvent.reclaim true ::
                (periodic_cleanup rest).1, (periodic_cleanup rest).2) := rfl
          refine ⟨?_, ?_, ?_⟩
          · rw [hred]
            simp [List.all_cons, LoopEvent.waitIsInterval, ih1]
          · rw [hred]
            simpa using ih2
          · intro hall
            simp only [List.all_cons, Bool.true_and] at hall
            rw [hred]
            simp only [List.length_cons, List.length_cons, ih3 hall]
            omega

/-- Witness for C8: two successful passes leave the loop running with a
trace of two wait/reclaim pairs. -/
theorem periodic_cleanup_loop_witness :
    (periodic_cleanup [true, true]).2 = true ∧ (periodic_cleanup [true, true]).1.length = 4 := by
  obtain ⟨-, h2, h3⟩ := periodic_cleanup_loop [true, true]
  exact ⟨h2.mpr (by decide), h3 (by decide)⟩

/-- Counterexample to C8 as stated: after a single failing reclamation
pass the loop is no longer running — no later tick occurs, even though a
further successful outcome was available. -/
theorem single_failure_ends_loop :
    (periodic_cleanup [false, true]).2 = false ∧
    (periodic_cleanup [false, true]).1 = [LoopEvent.wait 30, LoopEvent.reclaim false] := by
  decide

/-- The event trace of `perform_ocr_on_file` takes one of two shapes:
the exception-path trace (lock released during unwinding, then the
handler's reclamation pass) or the success-path trace (reclamation pass
inside the lock, then release). -/
lemma bot_trace_cases (p : String) (env : CropEnv) (engine : String → Except String PyVal) :
    (Bot.perform_ocr_on_file p env engine).2 =
        [Event.acquire, Event.engineCall, Event.release, Event.gcPass] ∨
    (Bot.perform_ocr_on_file p env engine).2 =
        [Event.acquire, Event.engineCall, Event.gcPass, Event.release] := by
  unfold Bot.perform_ocr_on_file
  cases h : engine (Bot.crop_image_to_target_region p env).1 with
  | error e => exact Or.inl rfl
  | ok raw =>
      dsimp only
      cases h2 : formatResults raw with
      | error e => exact Or.inl rfl
      | ok lines =>
          dsimp only
          cases h3 : pyJoinTexts lines with
          | error e => exact Or.inl rfl
          | ok txt => exact Or.inr rfl

/-- The event trace of the `/ocr` handler takes one of seven shapes,
depending on the request branch and where (if anywhere) an exception is
raised. -/
lemma app_trace_cases (body : OcrRequestBody) (engine : String → Except String PyVal) :
    (App.perform_ocr body engine).2 = [Event.acquire, Event.release] ∨
    (App.perform_ocr body engine).2 = [Event.acquire, Event.release, Event.gcPass] ∨
    (App.perform_ocr body engine).2 =
        [Event.acquire, Event.engineCall, Event.release, Event.gcPass] ∨
    (App.perform_ocr body engine).2 =
        [Event.acquire, Event.engineCall, Event.gcPass, Event.release] ∨
    (App.perform_ocr body engine).2 =
        [Event.acquire, Event.saveTemp tempImagePath, Event.engineCall,
         Event.release, Event.gcPass] ∨
    (App.perform_ocr body engine).2 =
        [Event.acquire, Event.saveTemp tempImagePath, Event.engineCall,
         Event.removeTemp tempImagePath, Event.release, Event.gcPass] ∨
    (App.perform_ocr body engine).2 =
        [Event.acquire, Event.saveTemp tempImagePath, Event.engineCall,
         Event.removeTemp tempImagePath, Event.gcPass, Event.release] := by
  rcases body with ⟨path, ex⟩ | ⟨dec, decImg, rOk⟩ | _
  · cases ex
    · exact Or.inl rfl
    · unfold App.perform_ocr
      dsimp only
      cases h : engine path with
      | error e => exact Or.inr (Or.inr (Or.inl rfl))
      | ok raw =>
          dsimp only
          cases h2 : formatResults raw with
          | error e => exact Or.inr (Or.inr (Or.inl rfl))
          | ok lines =>
              dsimp only
              cases h3 : pyJoinTexts lines with
              | error e => exact Or.inr (Or.inr (Or.inl rfl))
              | ok txt => exact Or.inr (Or.inr (Or.inr (Or.inl rfl)))
  · unfold App.perform_ocr
    dsimp only
    cases dec with
    | error e => exact Or.inr (Or.inl rfl)
    | ok u =>
        dsimp only
        cases decImg with
        | error e => exact Or.inr (Or.inl rfl)
        | ok u2 =>
            dsimp only
            cases h : engine tempImagePath with
            | error e => exact Or.inr (Or.inr (Or.inr (Or.inr (Or.inl rfl))))
            | ok raw =>
                dsimp only
                cases h2 : formatResults raw with
                | error e => exact Or.inr (Or.inr (Or.inr (Or.inr (Or.inr (Or.inl rfl)))))
                | ok lines =>
                    dsimp only
                    cases h3 : pyJoinTexts lines with
                    | error e =>
                        exact Or.inr (Or.inr (Or.inr (Or.inr (Or.inr (Or.inl rfl)))))
                    | ok txt =>
                        exact Or.inr (Or.inr (Or.inr (Or.inr (Or.inr (Or.inr rfl)))))
  · exact Or.inl rfl

/-- Claim C2 (amended): every exception raised by the engine invocation is
caught and never propagates (both handlers are total functions returning
a response value), and the OCR lock is acquired and released exactly once
on every exit path, including the exception path. The bot handler
converts the exception into a result with `success = False` and the error
message; the HTTP handler converts it into an error-message payload with
status 500, which carries no `success` field. -/
theorem engine_exception_contained :
    (∀ (p : String) (env : CropEnv) (e : String),
        (Bot.perform_ocr_on_file p env (fun _ => Except.error e)).1 = BotOcrResult.err e ∧
        (Bot.perform_ocr_on_file p env (fun _ => Except.error e)).1.success = false) ∧
    (∀ (p : String) (env : CropEnv) (engine : String → Except String PyVal),
        (Bot.perform_ocr_on_file p env engine).2.count Event.acquire = 1 ∧
        (Bot.perform_ocr_on_file p env engine).2.count Event.release = 1) ∧
    (∀ (body : OcrRequestBody) (engine : String → Except String PyVal),
        (App.perform_ocr body engine).2.count Event.acquire = 1 ∧
        (App.perform_ocr body engine).2.count Event.release = 1) ∧
    (∀ (p e : String),
        (App.perform_ocr (OcrRequestBody.withPath p true) (fun _ => Except.error e)).1 =
          (AppJson.error e, 500)) ∧
    (∀ (e : String) (removeOk : Bool),
        (App.perform_ocr (OcrRequestBody.withBase64 ⟨Except.ok (), Except.ok (), removeOk⟩)
            (fun _ => Except.error e)).1 = (AppJson.error e, 500)) := by
  refine ⟨fun p env e => ⟨rfl, rfl⟩, ?_, ?_, fun p e => rfl, fun e removeOk => rfl⟩
  · intro p env engine
    rcases bot_trace_cases p env engine with h | h <;> rw [h] <;> exact ⟨by decide, by decide⟩
  · intro body engine
    rcases app_trace_cases body engine with h | h | h | h | h | h | h <;> rw [h] <;>
      exact ⟨by decide, by decide⟩

/-- Counterexample to C2 as stated: on an engine exception the HTTP
handler's JSON body is the error payload, which carries no `success` key
at all — in particular it does not carry `success = false`. -/
theorem app_engine_error_lacks_success_flag :
    (App.perform_ocr (OcrRequestBody.withPath "img.png" true)
        (fun _ => Except.error "engine crashed")).1.1.successField = Option.none ∧
    (App.perform_ocr (OcrRequestBody.withPath "img.png" true)
        (fun _ => Except.error "engine crashed")).1.1.successField ≠ some false := by
  exact ⟨rfl, by decide⟩

/-- When every detection in the list either parses or is skipped (its
`formatLine` raises nothing), the accumulation loop succeeds and appends
the parsed lines in order. -/
lemma collectLines_go (lines : List PyVal) :
    ∀ acc : List OcrLine, (∀ l ∈ lines, ∃ r, formatLine l = Except.ok r) →
      lines.foldlM
          (fun acc line => do
            match ← formatLine line with
            | some ol => pure (acc ++ [ol])
            | none => pure acc)
          acc = Except.ok (acc ++ parsedLines lines) := by
  induction lines with
  | nil =>
      intro acc h
      simp only [List.foldlM_nil, parsedLines, List.filterMap_nil, List.append_nil]
      rfl
  | cons l ls ih =>
      intro acc h
      obtain ⟨r, hr⟩ := h l (List.mem_cons_self _ _)
      rw [List.foldlM_cons, hr]
      cases r with
      | some ol =>
          show List.foldlM _ (acc ++ [ol]) ls = _
          rw [ih (acc ++ [ol]) (fun x hx => h x (List.mem_cons_of_mem _ hx))]
          have hp : parsedLines (l :: ls) = ol :: parsedLines ls := by
            simp [parsedLines, List.filterMap_cons, hr]
          rw [hp, List.append_assoc]
          rfl
      | none =>
          show List.foldlM _ acc ls = _
          rw [ih acc (fun x hx => h x (List.mem_cons_of_mem _ hx))]
          have hp : parsedLines (l :: ls) = parsedLines ls := by
            simp [parsedLines, List.filterMap_cons, hr]
          rw [hp]

/-- Claim C3 (amended): a detection line that is falsy or has fewer than
two elements is skipped without failing the call, and when every line of
the raw output either parses cleanly or is skipped by that check, the
normalisation succeeds and returns the parsed lines in engine-reported
order. (A line passing the check whose components are malformed instead
makes the whole call fail — see the counterexample.) -/
theorem detection_parsing (lines : List PyVal)
    (h : ∀ l ∈ lines, ∃ r, formatLine l = Except.ok r) :
    formatResults (PyVal.list [PyVal.list lines]) = Except.ok (parsedLines lines) := by
  cases lines with
  | nil => rfl
  | cons l ls =>
      have hred : formatResults (PyVal.list [PyVal.list (l :: ls)]) = collectLines (l :: ls) :=
        rfl
      rw [hred, collectLines]
      rw [collectLines_go (l :: ls) [] h]
      simp

/-- Witness for C3: a well-formed detection followed by a falsy (`None`)
detection parses to exactly the well-formed line. -/
theorem detection_parsing_witness :
    formatResults (PyVal.list [PyVal.list
        [PyVal.list [PyVal.list [], PyVal.list [PyVal.str "hi", PyVal.float (9/10)]],
         PyVal.none]]) =
      Except.ok [OcrLine.mk (PyVal.str "hi") (9/10) (PyVal.list [])] := by
  refine Eq.trans (detection_parsing _ ?_) rfl
  intro l hl
  simp only [List.mem_cons, List.not_mem_nil, or_false] at hl
  rcases hl with rfl | rfl
  · exact ⟨some (OcrLine.mk (PyVal.str "hi") (9/10) (PyVal.list [])), rfl⟩
  · exact ⟨Option.none, rfl⟩

/-- Counterexample to C3 as stated: a malformed detection whose second
component is a number (shape not `(bbox, (text, confidence))`) passes the
code's `line and len(line) >= 2` check, so `line[1][0]` raises; the whole
call is converted to a failure result instead of skipping the line, and
the well-formed detection preceding it is lost. -/
theorem malformed_detection_fails_call :
    formatResults (PyVal.list [PyVal.list
        [PyVal.list [PyVal.list [], PyVal.list [PyVal.str "ok", PyVal.float (1/2)]],
         PyVal.list [PyVal.list [], PyVal.int 5]]]) =
      Except.error "TypeError: object is not subscriptable" ∧
    (Bot.perform_ocr_on_file "img.png" ⟨Except.ok (1720, 800), true, true, true, true⟩
        (fun _ => Except.ok (PyVal.list [PyVal.list
          [PyVal.list [PyVal.list [], PyVal.list [PyVal.str "ok", PyVal.float (1/2)]],
           PyVal.list [PyVal.list [], PyVal.int 5]]]))).1.success = false := by
  exact ⟨rfl, rfl⟩

/-- The `finally` cleanup of `runocr` attempts to remove the downloaded
temporary file exactly once, whatever the OCR result was (the derived
artifact removals are guarded by inequality with the temporary path). -/
lemma cleanup_removes_temp_once (t : String) (res : BotOcrResult) :
    (runocrCleanupEvents t res).count (Event.removeTemp t) = 1 := by
  cases res with
  | err m => simp [runocrCleanupEvents]
  | ok rs txt c v coords =>
      unfold runocrCleanupEvents
      by_cases hc : c = t <;> by_cases hv : v = t <;>
        simp [hc, hv, List.count_cons, List.count_append]

/-- The body of `perform_ocr_on_file` never touches temporary files: its
trace contains no removal events. -/
lemma bot_trace_no_removeTemp (p : String) (env : CropEnv)
    (engine : String → Except String PyVal) (t : String) :
    (Bot.perform_ocr_on_file p env engine).2.count (Event.removeTemp t) = 0 := by
  rcases bot_trace_cases p env engine with h | h <;> rw [h] <;>
    simp [List.count_eq_zero]

/-- Claim C4 (amended): the bot command removes its downloaded temporary
file exactly once on every exit path (the `finally` block runs after
success, empty-text return and OCR failure alike, and removal is
best-effort). The HTTP endpoint's base64 branch removes its temporary
file exactly once whenever the engine invocation returns — including when
later formatting raises — but an engine exception jumps to the handler
before the removal, which is skipped: the temporary file leaks. -/
theorem temp_file_cleanup :
    (∀ (t : String) (env : CropEnv) (engine : String → Except String PyVal),
        (Bot.runocr (Except.ok t) env engine).count (Event.removeTemp t) = 1) ∧
    (∀ (raw : PyVal) (removeOk : Bool),
        (App.perform_ocr (OcrRequestBody.withBase64 ⟨Except.ok (), Except.ok (), removeOk⟩)
            (fun _ => Except.ok raw)).2.count (Event.removeTemp tempImagePath) = 1) ∧
    (∀ (e : String) (removeOk : Bool),
        (App.perform_ocr (OcrRequestBody.withBase64 ⟨Except.ok (), Except.ok (), removeOk⟩)
            (fun _ => Except.error e)).2.count (Event.removeTemp tempImagePath) = 0) := by
  refine ⟨?_, ?_, ?_⟩
  · intro t env engine
    unfold Bot.runocr
    dsimp only
    rw [List.count_append, bot_trace_no_removeTemp, cleanup_removes_temp_once]
  · intro raw removeOk
    unfold App.perform_ocr
    dsimp only
    cases h2 : formatResults raw with
    | error e =>
        show List.count (Event.removeTemp tempImagePath)
          [Event.acquire, Event.saveTemp tempImagePath, Event.engineCall,
           Event.removeTemp tempImagePath, Event.release, Event.gcPass] = 1
        decide
    | ok lines =>
        dsimp only
        cases h3 : pyJoinTexts lines with
        | error e =>
            show List.count (Event.removeTemp tempImagePath)
              [Event.acquire, Event.saveTemp tempImagePath, Event.engineCall,
               Event.removeTemp tempImagePath, Event.release, Event.gcPass] = 1
            decide
        | ok txt =>
            show List.count (Event.removeTemp tempImagePath)
              [Event.acquire, Event.saveTemp tempImagePath, Event.engineCall,
               Event.removeTemp tempImagePath, Event.gcPass, Event.release] = 1
            decide
  · intro e removeOk
    show List.count (Event.removeTemp tempImagePath)
      [Event.acquire, Event.saveTemp tempImagePath, Event.engineCall,
       Event.release, Event.gcPass] = 0
    decide

/-- Counterexample to C4 as stated: in the HTTP endpoint's base64 branch
an engine exception leaves the materialized temporary file behind — the
trace records its creation but no removal. -/
theorem app_engine_failure_leaks_temp :
    (App.perform_ocr (OcrRequestBody.withBase64 ⟨Except.ok (), Except.ok (), true⟩)
        (fun _ => Except.error "engine crashed")).2.count (Event.saveTemp tempImagePath) = 1 ∧
    (App.perform_ocr (OcrRequestBody.withBase64 ⟨Except.ok (), Except.ok (), true⟩)
        (fun _ => Except.error "engine crashed")).2.count (Event.removeTemp tempImagePath) = 0 := by
  exact ⟨by decide, by decide⟩

/-- Claim C6 (amended): a missing-file request, a request with no image,
and a base64 request whose payload fails to decode are all answered
immediately with a descriptive error message, and the engine is never
invoked for them; likewise a failed download in the bot command produces
no events at all — in particular the ExecutionSlot is never acquired.
However, the HTTP endpoint enters `with ocr_lock:` before any of these
checks, so there the slot is acquired (and released before the error
return), contrary to the claim — see the counterexample. -/
theorem early_error_no_engine :
    (∀ (p : String) (engine : String → Except String PyVal),
        (App.perform_ocr (OcrRequestBody.withPath p false) engine).1 =
          (AppJson.error "Image file not found", 404) ∧
        (App.perform_ocr (OcrRequestBody.withPath p false) engine).2 =
          [Event.acquire, Event.release]) ∧
    (∀ engine : String → Except String PyVal,
        (App.perform_ocr OcrRequestBody.neither engine).1 =
          (AppJson.error "No image provided", 400) ∧
        (App.perform_ocr OcrRequestBody.neither engine).2 = [Event.acquire, Event.release]) ∧
    (∀ (e : String) (decImg : Except String Unit) (rOk : Bool)
        (engine : String → Except String PyVal),
        (App.perform_ocr (OcrRequestBody.withBase64 ⟨Except.error e, decImg, rOk⟩) engine).1 =
          (AppJson.error e, 500) ∧
        Event.engineCall ∉
          (App.perform_ocr (OcrRequestBody.withBase64 ⟨Except.error e, decImg, rOk⟩)
            engine).2) ∧
    (∀ (e : String) (env : CropEnv) (engine : String → Except String PyVal),
        Bot.runocr (Except.error e) env engine = []) := by
  refine ⟨fun p engine => ⟨rfl, rfl⟩, fun engine => ⟨rfl, rfl⟩, ?_, fun e env engine => rfl⟩
  intro e decImg rOk engine
  refine ⟨rfl, ?_⟩
  show Event.engineCall ∉ [Event.acquire, Event.release, Event.gcPass]
  decide

/-- Counterexample to C6 as stated: on a request whose image path does not
exist, the HTTP handler returns 404 — but only after acquiring the
ExecutionSlot, because the existence check sits inside `with ocr_lock:`. -/
theorem app_not_found_acquires_slot :
    (App.perform_ocr (OcrRequestBody.withPath "missing.png" false)
        (fun _ => Except.ok PyVal.none)).1.2 = 404 ∧
    Event.acquire ∈ (App.perform_ocr (OcrRequestBody.withPath "missing.png" false)
        (fun _ => Except.ok PyVal.none)).2 := by
  exact ⟨rfl, by decide⟩

/-- The mutual-exclusion invariant is preserved by every interleaved
step. -/
lemma mutexInv_step {s t : SysState} (hinv : MutexInv s) (hst : LockStep s t) : MutexInv t := by
  obtain ⟨hlock, hmut⟩ := hinv
  have hfree : s.lock = false → ¬holdsSlot s.pc1 ∧ ¬holdsSlot s.pc2 := by
    intro hl
    constructor
    · intro hh
      have := hlock.mpr (Or.inl hh)
      rw [hl] at this
      exact Bool.false_ne_true this
    · intro hh
      have := hlock.mpr (Or.inr hh)
      rw [hl] at this
      exact Bool.false_ne_true this
  cases hst with
  | work1 h =>
      refine ⟨?_, ?_⟩
      · simpa [holdsSlot, h] using hlock
      · simp [holdsSlot]
  | acquire1 h hl =>
      obtain ⟨-, h2⟩ := hfree hl
      exact ⟨⟨fun _ => Or.inl (Or.inl rfl), fun _ => rfl⟩, fun hc => h2 hc.2⟩
  | engine1 h =>
      refine ⟨?_, ?_⟩
      · have h1 : holdsSlot s.pc1 := Or.inl h
        have hl : s.lock = true := hlock.mpr (Or.inl h1)
        exact ⟨fun _ => Or.inl (Or.inr rfl), fun _ => hl⟩
      · intro hc
        exact hmut ⟨Or.inl h, hc.2⟩
  | release1 h =>
      refine ⟨?_, ?_⟩
      · constructor
        · intro hfalse
          exact absurd hfalse (by simp)
        · intro hor
          rcases hor with hh | hh
          · rcases hh with hh | hh <;> simp at hh
          · exact absurd (hmut ⟨Or.inr h, hh⟩) (fun x => x)
      · intro hc
        rcases hc.1 with hh | hh <;> simp at hh
  | work2 h =>
      refine ⟨?_, ?_⟩
      · simpa [holdsSlot, h] using hlock
      · simp [holdsSlot]
  | acquire2 h hl =>
      obtain ⟨h1, -⟩ := hfree hl
      exact ⟨⟨fun _ => Or.inr (Or.inl rfl), fun _ => rfl⟩, fun hc => h1 hc.1⟩
  | engine2 h =>
      refine ⟨?_, ?_⟩
      · have h2 : holdsSlot s.pc2 := Or.inl h
        have hl : s.lock = true := hlock.mpr (Or.inr h2)
        exact ⟨fun _ => Or.inr (Or.inr rfl), fun _ => hl⟩
      · intro hc
        exact hmut ⟨hc.1, Or.inl h⟩
  | release2 h =>
      refine ⟨?_, ?_⟩
      · constructor
        · intro hfalse
          exact absurd hfalse (by simp)
        · intro hor
          rcases hor with hh | hh
          · exact absurd (hmut ⟨hh, Or.inr h⟩) (fun x => x)
          · rcases hh with hh | hh <;> simp at hh
      · intro hc
        rcases hc.2 with hh | hh <;> simp at hh

/-- Every reachable state satisfies the invariant. -/
lemma reachable_mutexInv {s : SysState} (hr : ReachableState s) : MutexInv s := by
  induction hr with
  | init =>
      refine ⟨?_, ?_⟩
      · constructor
        · intro h
          exact absurd h (by simp [initState])
        · intro hor
          rcases hor with hh | hh <;> rcases hh with hh | hh <;> simp [initState] at hh
      · intro hc
        rcases hc.1 with hh | hh <;> simp [initState] at hh
  | step hr hst ih => exact mutexInv_step ih hst

/-- Claim C9: in every reachable interleaving of two concurrent requests,
at most one of them occupies the ExecutionSlot — each request's engine
call happens strictly between its `acquire` and `release`, so the OCR
engine is never invoked concurrently. -/
theorem ocr_slot_mutual_exclusion (s : SysState) (hr : ReachableState s) :
    ¬(holdsSlot s.pc1 ∧ holdsSlot s.pc2) :=
  (reachable_mutexInv hr).2

/-- Witness for C9: a concrete reachable state — thread one has finished
preprocessing and acquired the slot while thread two is still
preprocessing — satisfies the exclusion property. -/
theorem ocr_slot_mutual_exclusion_witness :
    ¬(holdsSlot (SysState.mk 2 1 true).pc1 ∧ holdsSlot (SysState.mk 2 1 true).pc2) :=
  ocr_slot_mutual_exclusion (SysState.mk 2 1 true)
    (ReachableState.step
      (ReachableState.step
        (ReachableState.step ReachableState.init (LockStep.work1 initState rfl))
        (LockStep.work2 ⟨1, 0, false⟩ rfl))
      (LockStep.acquire1 ⟨1, 1, false⟩ rfl rfl))
